import Mathlib

/-!
Verification of the client-side risk-fusion and biometric-capture pipeline
of the neuro_voice repository.

The numeric model uses exact rationals (ℚ) for the numbers JavaScript holds
in doubles; `Math.round` is modelled as `jsRound` (round half toward +∞,
which is the JavaScript semantics).

Sections:
* Fusion scorer — `src/src/pages/FusionReport.jsx` lines 86-120 and the
  embedded variant at the bottom of `src/src/pages/MotorTest.jsx` (lines
  354-381 of that file).
* Motor tap collector — `src/src/pages/MotorTest.jsx` (`calculateResults`).
* Voice capture session state machine — `src/src/pages/VoiceScan.jsx`.
* Backend health probe and API client — `checkBackendHealth` /
  `api.analyzeVoice` in the api client module (embedded at the end of
  `src/src/pages/WearableFusion.jsx`).
-/

/-- JavaScript `Math.round`: round half toward positive infinity,
`Math.round(x) = ⌊x + 0.5⌋`. -/
def jsRound (q : ℚ) : ℤ := ⌊q + 1 / 2⌋

/-- Motor bucket-to-percent mapping, `FusionReport.jsx` line 88 (and line 356
of the embedded variant): `motorResult.risk === 'High' ? 90 :
motorResult.risk === 'Medium' ? 60 : 20`. -/
def motorRiskOf (risk : String) : ℚ :=
  if risk = "High" then 90 else if risk = "Medium" then 60 else 20

/-- Weighted fusion, `FusionReport.jsx` lines 92-98: with an imaging risk
present `Math.round(vocalRisk*0.3 + motorRisk*0.3 + imageRisk*0.4)`,
otherwise `Math.round(vocalRisk*0.45 + motorRisk*0.55)`. -/
def fusedScore (vocalRisk motorRisk : ℚ) (imageRisk : Option ℚ) : ℤ :=
  match imageRisk with
  | some ir => jsRound (vocalRisk * (3 / 10) + motorRisk * (3 / 10) + ir * (4 / 10))
  | none => jsRound (vocalRisk * (45 / 100) + motorRisk * (55 / 100))

/-- Weighted fusion of the embedded two-domain variant, `MotorTest.jsx`
line 359: `Math.round(vocalRisk*0.45 + motorRisk*0.55)`. -/
def fusedScoreV (vocalRisk motorRisk : ℚ) : ℤ :=
  jsRound (vocalRisk * (45 / 100) + motorRisk * (55 / 100))

/-- The label / stage / description / severity-color quadruple attached to a
fused score (`finalLabel`, `finalStage`, `finalDesc`, `severityColor` in the
source). -/
structure FusionVerdict where
  finalLabel : String
  finalStage : String
  finalDesc : String
  severityColor : String
deriving DecidableEq, Repr

/-- Label selection of `FusionReport.jsx` lines 100-120: defaults to the
Healthy record, then the `if / else if` chain checks `>85`, `>60`, `>40`
from highest to lowest, first match winning. -/
def fusionVerdict (fused : ℤ) : FusionVerdict :=
  if fused > 85 then
    ⟨"High Clinical Suspicion", "H&Y Stage 2.5 - 4 (Established)",
      "Triple-domain convergence (Voice + Motor + Imaging) strongly suggests established neurodegenerative progression.",
      "var(--accent-red)"⟩
  else if fused > 60 then
    ⟨"Moderate Concern", "H&Y Stage 1.5 - 2 (Early-Mid)",
      "Significant biomarkers detected. Vocal instability aligns with kinematic slowness. Medical confirmation advised.",
      "var(--accent-amber)"⟩
  else if fused > 40 then
    ⟨"Prodromal / Early Signs", "H&Y Stage 1 (Mild)",
      "Early subclinical signals detected. Movement rhythm shows intermittent variance.",
      "var(--accent-cyan)"⟩
  else
    ⟨"Healthy", "H&Y 0 (Healthy Control)",
      "Combined biomarkers are within physiological norms.",
      "var(--accent-green)"⟩

/-- Label selection of the embedded variant, `MotorTest.jsx` lines 361-381:
same chain but the third tier is `>35` with the Prodromal / Subclinical
record. -/
def fusionVerdictV (fused : ℤ) : FusionVerdict :=
  if fused > 85 then
    ⟨"High Clinical Suspicion", "H&Y Stage 2.5 - 3 (Established)",
      "Dual-domain biomarkers confirm significant neurological involvement in both speech and motor control.",
      "var(--accent-red)"⟩
  else if fused > 60 then
    ⟨"Moderate Concern", "H&Y Stage 1.5 - 2 (Early-Mid)",
      "Inconsistencies detected in voice resonance paired with mild bradykinesia.",
      "var(--accent-amber)"⟩
  else if fused > 35 then
    ⟨"Prodromal / Subclinical", "H&Y Stage 1 (Prodromal)",
      "Early micro-signals detected. Likely the pre-motor phase where daily function is unaffected.",
      "var(--accent-cyan)"⟩
  else
    ⟨"Healthy", "H&Y 0 (Healthy Control)",
      "Both biomarkers are within physiological norms.",
      "var(--accent-green)"⟩

/-! ## Motor tap collector — `src/src/pages/MotorTest.jsx` -/

/-- Consecutive tap-interval list, `MotorTest.jsx` lines 80-83:
`for i in 1..taps.length: intervals.push(taps[i] - taps[i-1])`.
Tap timestamps are integer milliseconds from `Date.now()`. -/
def intervalsOf (taps : List ℤ) : List ℤ :=
  (taps.zip taps.tail).map (fun p => p.2 - p.1)

/-- Mean interval, line 85: `intervals.reduce((a,b) => a+b, 0) / intervals.length`. -/
def meanInterval (l : List ℤ) : ℚ := (l.sum : ℚ) / l.length

/-- Population variance of the intervals, the radicand on line 89:
`intervals.map(x => (x - mean)^2).reduce((a,b) => a+b) / intervals.length`. -/
def varianceOf (l : List ℤ) : ℚ :=
  ((l.map (fun x : ℤ => ((x : ℚ) - meanInterval l) ^ 2)).sum) / l.length

/-- The comparison `(Math.sqrt(variance)/mean)*100 > c` of lines 89-90 and
94/97, stated over exact rationals by squaring both sides: for a
nonnegative mean and nonnegative threshold `c`,
`100*sqrt(variance) > c*mean ↔ 10000*variance > c^2*mean^2` (and for a zero
mean with zero variance the JS comparison `NaN > c` is false, as here). -/
def cvGt (l : List ℤ) (c : ℚ) : Prop :=
  c ^ 2 * meanInterval l ^ 2 < 10000 * varianceOf l

instance (l : List ℤ) (c : ℚ) : Decidable (cvGt l c) := by
  unfold cvGt; infer_instance

/-- The value the classifier compares as `speed`, line 86:
`(taps.length / 15).toFixed(1)` produces the decimal string of
`taps.length/15` rounded to one decimal, and the later comparisons
`speed < 2.5` / `speed < 4` coerce it back to that rounded number.
`n/15` is never exactly halfway between two tenths (`4n = 3(2k+1)` has no
integer solution), so round-half-up equals JS `toFixed` rounding here. -/
def speedOfCount (n : ℕ) : ℚ := (⌊(10 * n : ℚ) / 15 + 1 / 2⌋ : ℤ) / 10

/-- Result of `calculateResults`: either the error object of line 74 (which
carries no statistics) or the metrics object of lines 102-108. -/
inductive MotorResult
  | error (msg : String)
  | metrics (totalTaps : ℕ) (speed : ℚ) (risk : String) (hy_guess : String)
deriving DecidableEq, Repr

/-- The risk bucket reported by a `MotorResult`, if any. -/
def MotorResult.riskLabel : MotorResult → Option String
  | .error _ => none
  | .metrics _ _ r _ => some r

/-- `calculateResults` body, `MotorTest.jsx` lines 71-111: fewer than 5 taps
fails with the insufficient-data error; otherwise the risk bucket is chosen
by `irregularity > 35 || speed < 2.5` (High), else
`irregularity > 20 || speed < 4` (Medium), else Low. -/
def calculateResults (taps : List ℤ) : MotorResult :=
  if taps.length < 5 then .error "Insufficient data. Please tap faster."
  else
    let intervals := intervalsOf taps
    let speed := speedOfCount taps.length
    if cvGt intervals 35 ∨ speed < 5 / 2 then
      .metrics taps.length speed "High" "H&Y Stage 2.5+"
    else if cvGt intervals 20 ∨ speed < 4 then
      .metrics taps.length speed "Medium" "H&Y Stage 1-2"
    else
      .metrics taps.length speed "Low" "H&Y Stage 0"

/-- The classification exactly as the claim states it: identical to
`calculateResults` except that the speed compared against the thresholds is
the unrounded `totalTaps / 15`. -/
def claimCalculateResults (taps : List ℤ) : MotorResult :=
  if taps.length < 5 then .error "Insufficient data. Please tap faster."
  else
    let intervals := intervalsOf taps
    let speed : ℚ := (taps.length : ℚ) / 15
    if cvGt intervals 35 ∨ speed < 5 / 2 then
      .metrics taps.length speed "High" "H&Y Stage 2.5+"
    else if cvGt intervals 20 ∨ speed < 4 then
      .metrics taps.length speed "Medium" "H&Y Stage 1-2"
    else
      .metrics taps.length speed "Low" "H&Y Stage 0"

/-- 37 taps spaced exactly 300 ms apart (all inside the 15 s window). -/
def regularTaps37 : List ℤ := (List.range 37).map (fun i => 300 * (i : ℤ))

/-! ## Motor test stage machine — `MotorTest.jsx` component state -/

/-- The `stage` state of the motor test: `intro | ready | testing | result`. -/
inductive MotorStage
  | intro | ready | testing | result
deriving DecidableEq, Repr

/-- Component state of `MotorTest`: `stage`, recorded tap timestamps,
countdown seconds left, and the metrics published on completion. -/
structure MotorState where
  stage : MotorStage
  taps : List ℤ
  timeLeft : ℕ
  metrics : Option MotorResult
deriving DecidableEq, Repr

/-- Events driving the motor test: the two stage buttons, a tap input, a
countdown tick (the `useEffect` also runs `calculateResults` once
`timeLeft` reaches 0), and the Try Again / Repeat Test buttons of the
result view. -/
inductive MotorEvent
  | imReady | startTest | tap (t : ℤ) | tick | tryAgain | repeatTest
deriving DecidableEq, Repr

/-- Transition function of the motor test, from `MotorTest.jsx`:
`startTest` (line 33) resets `timeLeft` to 15 and clears taps; `handleTap`
(line 53) appends a timestamp only while testing; the countdown effect
(lines 39-51) decrements `timeLeft` and calls `calculateResults`
(which first sets the stage to `result`) when it hits 0; both the
Try Again button of the error view (line 266) and Repeat Test (line 310)
return to `intro`. -/
def motorStep (s : MotorState) : MotorEvent → MotorState
  | .imReady => if s.stage = .intro then { s with stage := .ready } else s
  | .startTest =>
      if s.stage = .ready then { s with stage := .testing, timeLeft := 15, taps := [] }
      else s
  | .tap t => if s.stage = .testing then { s with taps := s.taps ++ [t] } else s
  | .tick =>
      if s.stage = .testing then
        if 0 < s.timeLeft then { s with timeLeft := s.timeLeft - 1 }
        else { s with stage := .result, metrics := some (calculateResults s.taps) }
      else s
  | .tryAgain => if s.stage = .result then { s with stage := .intro } else s
  | .repeatTest => if s.stage = .result then { s with stage := .intro } else s

/-! ## Voice capture session — `src/src/pages/VoiceScan.jsx` -/

/-- The `stage` state of the voice scan:
`idle | recording | analyzing | result | error`. -/
inductive VStage
  | idle | recording | analyzing | result | error
deriving DecidableEq, Repr

/-- Backend status values: `checking | online | offline | no_model`. -/
inductive BStatus
  | checking | online | offline | no_model
deriving DecidableEq, Repr

/-- Outcome of `navigator.mediaDevices.getUserMedia`: success, the
`NotAllowedError` / `PermissionDeniedError` rejection, the `NotFoundError`
rejection, or any other device error with its message. -/
inductive MicOutcome
  | granted | notAllowed | notFound | otherError (msg : String)
deriving DecidableEq, Repr

/-- The environment a `VoiceScan` interaction runs in: whether a patient is
selected, the last known backend status, how microphone acquisition
resolves, and whether the speech-recognition capability exists. -/
structure VEnv where
  patientSelected : Bool
  backendStatus : BStatus
  mic : MicOutcome
  speechAvailable : Bool
deriving DecidableEq, Repr

/-- Component/ref state of `VoiceScan`: the stage, elapsed seconds, error
message, which cancellable resources are live (tick interval, animation
frame sampler, speech recognition, stream tracks, active recorder), whether
a recorder `stop()` has been requested with its `onstop` not yet fired, the
total bytes buffered in `audioChunks`, the progress-ladder timers, the
`isSubmitting` flag, and the number of `api.analyzeVoice` calls issued
(the observable the cancellation claims are about). -/
structure VState where
  stage : VStage
  elapsed : ℕ
  errorMsg : String
  timerOn : Bool
  visualizerOn : Bool
  recognitionOn : Bool
  streamOpen : Bool
  recorderActive : Bool
  stopPending : Bool
  chunkBytes : ℕ
  stepTimersOn : Bool
  isSubmitting : Bool
  analysisCalls : ℕ
deriving DecidableEq, Repr

/-- The initial component state. -/
def initVState : VState :=
  ⟨.idle, 0, "", false, false, false, false, false, false, 0, false, false, 0⟩

/-- Error message of `VoiceScan.jsx` line 188. -/
def selectPatientMsg : String := "Please select or create a patient first."

/-- Error message of line 193. -/
def backendOfflineMsg : String :=
  "Backend is offline. Please start it by running start_backend.bat, then wait a few seconds and try again."

/-- Error message of line 198. -/
def modelNotReadyMsg : String :=
  "ML model is not ready. The backend needs to train the model first. Run start_backend.bat and wait for it to finish training."

/-- Error message of line 246 (`blob.size < 1000` in `mr.onstop`). -/
def emptyRecordingMsg : String :=
  "Recording too short or empty. Please speak clearly for at least 3 seconds."

/-- Error message of line 324 (`runAnalysis` without a patient). -/
def noPatientMsg : String :=
  "No patient selected. Please register/select a patient in the Patients tab first."

/-- The distinct message each `getUserMedia` failure produces
(lines 214-220). -/
def micFailMsg : MicOutcome → String
  | .granted => ""
  | .notAllowed =>
      "Microphone access denied. Allow microphone access in your browser settings and try again."
  | .notFound => "No microphone found. Please connect a microphone and try again."
  | .otherError m => "Microphone error: " ++ m

/-- `startRecording` (lines 184-302), as the net state change of one call:
`setError('')` then the patient and backend-status guards, then microphone
acquisition; on mic failure only the distinct error message is set (the
stream ref is never assigned, no timer / visualizer / recognition is
started, the stage is untouched); on success the recorder and all monitors
start, `audioChunks` is cleared, and the stage becomes `recording`. -/
def startRecording (env : VEnv) (s : VState) : VState :=
  if env.patientSelected = false then { s with errorMsg := selectPatientMsg }
  else if env.backendStatus = .offline then { s with errorMsg := backendOfflineMsg }
  else if env.backendStatus = .no_model then { s with errorMsg := modelNotReadyMsg }
  else
    match env.mic with
    | .granted =>
        { s with errorMsg := "", streamOpen := true, recorderActive := true,
                 stopPending := false, chunkBytes := 0, stage := .recording,
                 elapsed := 0, visualizerOn := true,
                 recognitionOn := env.speechAvailable, timerOn := true }
    | m => { s with errorMsg := micFailMsg m }

/-- `stopRecording` (lines 304-319): clears the tick interval, stops the
visualizer and recognition, requests `mediaRecorder.stop()` when the
recorder is active (its `onstop` then fires asynchronously), releases the
stream tracks, and enters the `analyzing` stage. -/
def stopRecording (s : VState) : VState :=
  { s with timerOn := false, visualizerOn := false, recognitionOn := false,
           stopPending := s.stopPending || s.recorderActive,
           recorderActive := false, streamOpen := false, stage := .analyzing }

/-- `runAnalysis` (lines 322-357) up to the point the request is issued:
guard on the selected patient, set `isSubmitting`, restart the
progress-ladder timers and issue one `api.analyzeVoice` call. -/
def runAnalysis (env : VEnv) (s : VState) : VState :=
  if env.patientSelected = false then
    { s with errorMsg := noPatientMsg, stage := .error }
  else
    { s with isSubmitting := true, stepTimersOn := true,
             analysisCalls := s.analysisCalls + 1 }

/-- `mr.onstop` (lines 240-251): build the blob from the collected chunks;
below 1000 bytes surface the empty-recording error state, otherwise call
`runAnalysis`. -/
def onstopHandler (env : VEnv) (s : VState) : VState :=
  if s.chunkBytes < 1000 then
    { s with stopPending := false, errorMsg := emptyRecordingMsg, stage := .error }
  else
    runAnalysis env { s with stopPending := false }

/-- `reset` (lines 359-376): clears the tick interval and step timers, stops
the visualizer, releases stream tracks, calls `mediaRecorder.stop()` when
the recorder is not inactive — without detaching its `onstop` handler, so
the stop event is still pending afterwards — and returns to `idle`,
clearing the error, elapsed count and submission flag. (`reset` does not
touch `audioChunks` or the recognition ref.) -/
def reset (s : VState) : VState :=
  { s with timerOn := false, stepTimersOn := false, visualizerOn := false,
           streamOpen := false, stopPending := s.stopPending || s.recorderActive,
           recorderActive := false, stage := .idle, errorMsg := "",
           elapsed := 0, isSubmitting := false }

/-- User / runtime events of the voice scan. `startClick` and `stopClick`
model the buttons, which the JSX disables unless a patient is selected with
the backend online (line 546) resp. the stage is `recording` with at least
2 elapsed seconds (line 626); `chunk` is `mr.ondataavailable` with a
payload size; `tick` is the 1-second interval of lines 293-301;
`cancelClick` is the Cancel button of the recording stage (line 630);
`recorderStopped` is the asynchronous `mr.onstop` event. -/
inductive VEvent
  | startClick
  | chunk (bytes : ℕ)
  | tick
  | stopClick
  | cancelClick
  | recorderStopped
deriving DecidableEq, Repr

/-- One step of the voice-scan session under environment `env`. -/
def step (env : VEnv) (s : VState) : VEvent → VState
  | .startClick =>
      if (s.stage = .idle ∨ s.stage = .error) ∧ env.patientSelected = true
          ∧ env.backendStatus = .online
      then startRecording env s else s
  | .chunk n =>
      if (s.recorderActive || s.stopPending) = true ∧ 0 < n
      then { s with chunkBytes := s.chunkBytes + n } else s
  | .tick =>
      if s.timerOn = true then
        if 30 ≤ s.elapsed then stopRecording { s with elapsed := 30 }
        else { s with elapsed := s.elapsed + 1 }
      else s
  | .stopClick =>
      if s.stage = .recording ∧ 2 ≤ s.elapsed then stopRecording s else s
  | .cancelClick => if s.stage = .recording then reset s else s
  | .recorderStopped => if s.stopPending = true then onstopHandler env s else s

/-! ## Backend health probe and API client — `api/client.js` (embedded at the
end of `WearableFusion.jsx`) -/

/-- How one `/health` probe resolves: `request` throws on a network error,
on the 4-second abort timeout and on a non-ok HTTP response; otherwise it
returns the parsed body with its `model_ready` flag. -/
inductive ProbeOutcome
  | networkError | timeout | httpError | success (model_ready : Bool)
deriving DecidableEq, Repr

/-- `checkBackendHealth` (client lines 517-524): any throw from `request`
yields `{online: false, modelReady: false}`; a successful response yields
`{online: true, modelReady: data.model_ready}`. Returned as the pair
`(online, modelReady)`. -/
def checkBackendHealth : ProbeOutcome → Bool × Bool
  | .success r => (true, r)
  | _ => (false, false)

/-- `pingBackend` (`VoiceScan.jsx` lines 132-142): maps the probe result to
the status — `!h.online → offline`, `!h.modelReady → no_model`, else
`online`. -/
def pingBackend (o : ProbeOutcome) : BStatus :=
  if (checkBackendHealth o).1 = false then .offline
  else if (checkBackendHealth o).2 = false then .no_model
  else .online

/-- The ordered MIME preference list, `VoiceScan.jsx` lines 80-87. -/
def SUPPORTED_MIME : List String :=
  ["audio/mp4", "audio/webm;codecs=opus", "audio/webm",
   "audio/ogg;codecs=opus", "audio/ogg", "audio/wav"]

/-- `getSupportedMime` (lines 89-95): empty string when `MediaRecorder` is
undefined, otherwise the first list entry `isTypeSupported` accepts, and
the empty string (runtime default) when none is accepted. -/
def getSupportedMime (hasMediaRecorder : Bool) (isTypeSupported : String → Bool) : String :=
  if hasMediaRecorder = false then ""
  else
    match SUPPORTED_MIME.find? isTypeSupported with
    | some m => m
    | none => ""

/-- Substring test on character lists, scanning left to right. -/
def containsSub (sub : List Char) : List Char → Bool
  | [] => sub.isEmpty
  | c :: t => sub.isPrefixOf (c :: t) || containsSub sub t

/-- JavaScript `s.includes(sub)`. -/
def jsIncludes (s sub : String) : Bool := containsSub sub.toList s.toList

/-- File-extension selection of `api.analyzeVoice` (client lines 541-552):
default `webm`, then `mp4`/`m4a`/`aac → m4a`, `ogg → ogg`,
`wav`/`wave → wav`, `webm → webm` by substring tests on the blob MIME
type. -/
def extForMime (mime : String) : String :=
  if jsIncludes mime "mp4" || jsIncludes mime "m4a" || jsIncludes mime "aac" then "m4a"
  else if jsIncludes mime "ogg" then "ogg"
  else if jsIncludes mime "wav" || jsIncludes mime "wave" then "wav"
  else if jsIncludes mime "webm" then "webm"
  else "webm"

/-- The filename the audio blob is uploaded under (client line 554):
`recording.${ext}`. -/
def uploadFilename (mime : String) : String := "recording." ++ extForMime mime


/-! ## Claim theorems -/

/-- C1: with Vocal and Motor present and no Imaging result, the fusion scorer
computes `fusedScore = round(vocalRisk*0.45 + motorRisk*0.55)`; for
vocalRisk = 80 and motorRisk = 90 the fused score is 86 and the label is
"High Clinical Suspicion" (in both the main report and the embedded
two-domain variant). -/
theorem C1_two_domain_fusion :
    (∀ vocalRisk motorRisk : ℚ,
      fusedScore vocalRisk motorRisk none =
        jsRound (vocalRisk * (45 / 100) + motorRisk * (55 / 100)))
    ∧ fusedScore 80 90 none = 86
    ∧ (fusionVerdict 86).finalLabel = "High Clinical Suspicion"
    ∧ fusedScoreV 80 90 = 86
    ∧ (fusionVerdictV 86).finalLabel = "High Clinical Suspicion" := by
  refine ⟨fun v m => rfl, ?_, ?_, ?_, ?_⟩
  · norm_num [fusedScore, jsRound]
  · rw [fusionVerdict, if_pos (by norm_num)]
  · norm_num [fusedScoreV, jsRound]
  · rw [fusionVerdictV, if_pos (by norm_num)]

/-- C2: with all three domains present the fusion scorer computes
`fusedScore = round(vocalRisk*0.30 + motorRisk*0.30 + imagingRisk*0.40)`,
the motor bucket mapping is High→90, Medium→60, Low→20, and
vocalRisk = 0, bucket Low (→20), imagingRisk = 0 yields fused score 6 and
label "Healthy". -/
theorem C2_three_domain_fusion :
    (∀ vocalRisk motorRisk imagingRisk : ℚ,
      fusedScore vocalRisk motorRisk (some imagingRisk) =
        jsRound (vocalRisk * (30 / 100) + motorRisk * (30 / 100) + imagingRisk * (40 / 100)))
    ∧ motorRiskOf "High" = 90
    ∧ motorRiskOf "Medium" = 60
    ∧ motorRiskOf "Low" = 20
    ∧ fusedScore 0 (motorRiskOf "Low") (some 0) = 6
    ∧ (fusionVerdict 6).finalLabel = "Healthy" := by
  have hLow : motorRiskOf "Low" = 20 := by
    rw [motorRiskOf, if_neg (by decide), if_neg (by decide)]
  refine ⟨fun v m i => ?_, ?_, ?_, hLow, ?_, ?_⟩
  · show jsRound _ = jsRound _
    congr 1
    ring
  · rw [motorRiskOf, if_pos rfl]
  · rw [motorRiskOf, if_neg (by decide), if_pos rfl]
  · rw [hLow]
    norm_num [fusedScore, jsRound]
  · rw [fusionVerdict, if_neg (by norm_num), if_neg (by norm_num),
      if_neg (by norm_num)]

/-- C3: labels are chosen by checking thresholds from highest to lowest with
first match winning — `>85` High Clinical Suspicion, `>60` Moderate Concern,
`>40` Prodromal / Early Signs (the embedded two-domain variant uses `>35`
for this tier), otherwise Healthy — and each tier carries a fixed stage
string and severity color token. -/
theorem C3_label_thresholds :
    ∀ fused : ℤ,
      (85 < fused → fusionVerdict fused =
        ⟨"High Clinical Suspicion", "H&Y Stage 2.5 - 4 (Established)",
          "Triple-domain convergence (Voice + Motor + Imaging) strongly suggests established neurodegenerative progression.",
          "var(--accent-red)"⟩)
      ∧ (60 < fused → fused ≤ 85 → fusionVerdict fused =
        ⟨"Moderate Concern", "H&Y Stage 1.5 - 2 (Early-Mid)",
          "Significant biomarkers detected. Vocal instability aligns with kinematic slowness. Medical confirmation advised.",
          "var(--accent-amber)"⟩)
      ∧ (40 < fused → fused ≤ 60 → fusionVerdict fused =
        ⟨"Prodromal / Early Signs", "H&Y Stage 1 (Mild)",
          "Early subclinical signals detected. Movement rhythm shows intermittent variance.",
          "var(--accent-cyan)"⟩)
      ∧ (fused ≤ 40 → fusionVerdict fused =
        ⟨"Healthy", "H&Y 0 (Healthy Control)",
          "Combined biomarkers are within physiological norms.",
          "var(--accent-green)"⟩)
      ∧ (85 < fused → fusionVerdictV fused =
        ⟨"High Clinical Suspicion", "H&Y Stage 2.5 - 3 (Established)",
          "Dual-domain biomarkers confirm significant neurological involvement in both speech and motor control.",
          "var(--accent-red)"⟩)
      ∧ (60 < fused → fused ≤ 85 → fusionVerdictV fused =
        ⟨"Moderate Concern", "H&Y Stage 1.5 - 2 (Early-Mid)",
          "Inconsistencies detected in voice resonance paired with mild bradykinesia.",
          "var(--accent-amber)"⟩)
      ∧ (35 < fused → fused ≤ 60 → fusionVerdictV fused =
        ⟨"Prodromal / Subclinical", "H&Y Stage 1 (Prodromal)",
          "Early micro-signals detected. Likely the pre-motor phase where daily function is unaffected.",
          "var(--accent-cyan)"⟩)
      ∧ (fused ≤ 35 → fusionVerdictV fused =
        ⟨"Healthy", "H&Y 0 (Healthy Control)",
          "Both biomarkers are within physiological norms.",
          "var(--accent-green)"⟩) := by
  intro fused
  refine ⟨fun h => ?_, fun h h2 => ?_, fun h h2 => ?_, fun h => ?_,
    fun h => ?_, fun h h2 => ?_, fun h h2 => ?_, fun h => ?_⟩
  · rw [fusionVerdict, if_pos (by omega)]
  · rw [fusionVerdict, if_neg (by omega), if_pos (by omega)]
  · rw [fusionVerdict, if_neg (by omega), if_neg (by omega), if_pos (by omega)]
  · rw [fusionVerdict, if_neg (by omega), if_neg (by omega), if_neg (by omega)]
  · rw [fusionVerdictV, if_pos (by omega)]
  · rw [fusionVerdictV, if_neg (by omega), if_pos (by omega)]
  · rw [fusionVerdictV, if_neg (by omega), if_neg (by omega), if_pos (by omega)]
  · rw [fusionVerdictV, if_neg (by omega), if_neg (by omega), if_neg (by omega)]

/-- Witness for C3 at concrete scores in each tier of both variants. -/
theorem C3_label_thresholds_witness :
    (fusionVerdict 90).finalLabel = "High Clinical Suspicion"
    ∧ (fusionVerdict 61).finalLabel = "Moderate Concern"
    ∧ (fusionVerdict 41).finalLabel = "Prodromal / Early Signs"
    ∧ (fusionVerdict 40).finalLabel = "Healthy"
    ∧ (fusionVerdictV 36).finalLabel = "Prodromal / Subclinical"
    ∧ (fusionVerdictV 35).finalLabel = "Healthy" := by
  refine ⟨?_, ?_, ?_, ?_, ?_, ?_⟩
  · rw [(C3_label_thresholds 90).1 (by norm_num)]
  · rw [(C3_label_thresholds 61).2.1 (by norm_num) (by norm_num)]
  · rw [(C3_label_thresholds 41).2.2.1 (by norm_num) (by norm_num)]
  · rw [(C3_label_thresholds 40).2.2.2.1 (by norm_num)]
  · rw [(C3_label_thresholds 36).2.2.2.2.2.2.1 (by norm_num) (by norm_num)]
  · rw [(C3_label_thresholds 35).2.2.2.2.2.2.2 (by norm_num)]

lemma intervalsOf_regularTaps37 : intervalsOf regularTaps37 = List.replicate 36 300 := by
  decide

lemma meanInterval_replicate (n : ℕ) (c : ℤ) (h : 0 < n) :
    meanInterval (List.replicate n c) = c := by
  rw [meanInterval, List.sum_replicate, List.length_replicate]
  push_cast [nsmul_eq_mul]
  field_simp

lemma varianceOf_replicate (n : ℕ) (c : ℤ) (h : 0 < n) :
    varianceOf (List.replicate n c) = 0 := by
  rw [varianceOf, meanInterval_replicate n c h, List.map_replicate]
  simp

lemma not_cvGt_replicate (n : ℕ) (c : ℤ) (q : ℚ) (h : 0 < n) :
    ¬ cvGt (List.replicate n c) q := by
  rw [cvGt, varianceOf_replicate n c h, meanInterval_replicate n c h]
  intro hlt
  nlinarith [sq_nonneg (q * c)]

/-- C4 counterexample: for 37 perfectly regular taps the code rounds the
speed `37/15 ≈ 2.4667` up to `2.5` before comparing, so `speed < 2.5` fails
and the code classifies Medium, while the claimed formula (unrounded
`totalTaps/15`) classifies High. -/
theorem C4_counterexample_rounded_speed :
    (calculateResults regularTaps37).riskLabel = some "Medium"
    ∧ (claimCalculateResults regularTaps37).riskLabel = some "High" := by
  have hlen : regularTaps37.length = 37 := by decide
  have hcv35 : ¬ cvGt (intervalsOf regularTaps37) 35 := by
    rw [intervalsOf_regularTaps37]
    exact not_cvGt_replicate 36 300 35 (by norm_num)
  have hcv20 : ¬ cvGt (intervalsOf regularTaps37) 20 := by
    rw [intervalsOf_regularTaps37]
    exact not_cvGt_replicate 36 300 20 (by norm_num)
  constructor
  · rw [calculateResults, if_neg (by rw [hlen]; norm_num)]
    rw [hlen]
    rw [if_neg, if_pos]
    · rfl
    · right
      norm_num [speedOfCount]
    · rintro (h | h)
      · exact hcv35 h
      · revert h
        norm_num [speedOfCount]
  · rw [claimCalculateResults, if_neg (by rw [hlen]; norm_num)]
    rw [hlen]
    rw [if_pos]
    · rfl
    · right
      norm_num

/-- C4 (amended): for at least 5 taps the collector computes the consecutive
intervals, compares the coefficient of variation (in percent) against the
thresholds, and compares the speed `totalTaps/15` rounded to one decimal
(JS `toFixed(1)`, coerced back to a number) against 2.5 / 4, checking High
before Medium with OR tie-breaks; 5 taps at `[0,300,600,900,1200]` give
rounded speed 0.3 and zero variance and are classified High via the speed
disjunct. -/
theorem C4_classification_rounded_speed :
    (∀ taps : List ℤ, 5 ≤ taps.length →
      ((cvGt (intervalsOf taps) 35 ∨ speedOfCount taps.length < 5 / 2) →
        (calculateResults taps).riskLabel = some "High")
      ∧ (¬ (cvGt (intervalsOf taps) 35 ∨ speedOfCount taps.length < 5 / 2) →
          (cvGt (intervalsOf taps) 20 ∨ speedOfCount taps.length < 4) →
          (calculateResults taps).riskLabel = some "Medium")
      ∧ (¬ (cvGt (intervalsOf taps) 35 ∨ speedOfCount taps.length < 5 / 2) →
          ¬ (cvGt (intervalsOf taps) 20 ∨ speedOfCount taps.length < 4) →
          (calculateResults taps).riskLabel = some "Low"))
    ∧ (calculateResults [0, 300, 600, 900, 1200]).riskLabel = some "High"
    ∧ varianceOf (intervalsOf [0, 300, 600, 900, 1200]) = 0
    ∧ speedOfCount 5 = 3 / 10 := by
  refine ⟨fun taps h5 => ⟨fun hHigh => ?_, fun hnHigh hMed => ?_, fun hnHigh hnMed => ?_⟩,
    ?_, ?_, ?_⟩
  · rw [calculateResults, if_neg (by omega), if_pos hHigh]
    rfl
  · rw [calculateResults, if_neg (by omega), if_neg hnHigh, if_pos hMed]
    rfl
  · rw [calculateResults, if_neg (by omega), if_neg hnHigh, if_neg hnMed]
    rfl
  · rw [calculateResults, if_neg (by norm_num), if_pos]
    · rfl
    · right
      norm_num [speedOfCount]
  · have : intervalsOf [0, 300, 600, 900, 1200] = List.replicate 4 300 := by decide
    rw [this]
    exact varianceOf_replicate 4 300 (by norm_num)
  · norm_num [speedOfCount]

/-- Witness for C4 (amended) at 5 regular taps: the High hypothesis is
discharged via the rounded-speed disjunct. -/
theorem C4_classification_rounded_speed_witness :
    (calculateResults [0, 300, 600, 900, 1200]).riskLabel = some "High" := by
  exact (C4_classification_rounded_speed.1 [0, 300, 600, 900, 1200] (by norm_num)).1
    (Or.inr (by norm_num [speedOfCount]))

/-- C5: with fewer than 5 taps in the window the collector produces the
insufficient-data error result, reports no statistics (no risk bucket), and
the Try Again button returns the user to the Intro stage. -/
theorem C5_insufficient_taps :
    (∀ taps : List ℤ, taps.length < 5 →
      calculateResults taps = .error "Insufficient data. Please tap faster."
      ∧ (calculateResults taps).riskLabel = none)
    ∧ (∀ s : MotorState, s.stage = .testing → s.timeLeft = 0 → s.taps.length < 5 →
      (motorStep s .tick).stage = .result
      ∧ (motorStep s .tick).metrics =
          some (.error "Insufficient data. Please tap faster.")
      ∧ (motorStep (motorStep s .tick) .tryAgain).stage = .intro) := by
  have hcalc : ∀ taps : List ℤ, taps.length < 5 →
      calculateResults taps = .error "Insufficient data. Please tap faster." := by
    intro taps h
    rw [calculateResults, if_pos h]
  refine ⟨fun taps h => ⟨hcalc taps h, ?_⟩, fun s hs ht hn => ?_⟩
  · rw [hcalc taps h]
    rfl
  · rw [motorStep, if_pos hs, if_neg (by omega)]
    refine ⟨rfl, by rw [hcalc s.taps hn], ?_⟩
    rw [motorStep, if_pos rfl]

/-- Witness for C5: a testing state that timed out with 3 taps. -/
theorem C5_insufficient_taps_witness :
    (motorStep ⟨.testing, [0, 200, 400], 0, none⟩ .tick).metrics =
      some (.error "Insufficient data. Please tap faster.")
    ∧ (motorStep (motorStep ⟨.testing, [0, 200, 400], 0, none⟩ .tick) .tryAgain).stage =
      .intro := by
  exact ⟨(C5_insufficient_taps.2 ⟨.testing, [0, 200, 400], 0, none⟩ rfl rfl
      (by norm_num)).2.1,
    (C5_insufficient_taps.2 ⟨.testing, [0, 200, 400], 0, none⟩ rfl rfl
      (by norm_num)).2.2⟩

/-- C6 (bug evidence): cancelling mid-recording does NOT prevent the
analysis call. `reset()` stops the recorder without detaching `onstop`, so
after Cancel the pending stop event still fires and — with at least 1000
bytes buffered — `runAnalysis` issues an `api.analyzeVoice` call for the
cancelled recording: starting, buffering 5000 bytes, cancelling (back to
`idle`, zero calls so far), then the recorder stop event yields exactly one
analysis call. -/
theorem C6_cancel_during_recording_still_analyzes :
    ([VEvent.startClick, .chunk 5000].foldl
        (step ⟨true, .online, .granted, false⟩) initVState).stage = .recording
    ∧ ([VEvent.startClick, .chunk 5000, .cancelClick].foldl
        (step ⟨true, .online, .granted, false⟩) initVState).stage = .idle
    ∧ ([VEvent.startClick, .chunk 5000, .cancelClick].foldl
        (step ⟨true, .online, .granted, false⟩) initVState).stopPending = true
    ∧ ([VEvent.startClick, .chunk 5000, .cancelClick].foldl
        (step ⟨true, .online, .granted, false⟩) initVState).analysisCalls = 0
    ∧ ([VEvent.startClick, .chunk 5000, .cancelClick, .recorderStopped].foldl
        (step ⟨true, .online, .granted, false⟩) initVState).analysisCalls = 1 := by
  exact ⟨rfl, rfl, rfl, rfl, rfl⟩

/-- C7: a finalized blob below the 1000-byte threshold surfaces the
empty-recording error state without issuing an analysis call, and the
Stop and Analyze button rejects any stop before 2 elapsed seconds (it is
disabled, so the click leaves the state unchanged). -/
theorem C7_empty_recording_guard :
    (∀ (env : VEnv) (s : VState), s.stopPending = true → s.chunkBytes < 1000 →
      (step env s .recorderStopped).stage = .error
      ∧ (step env s .recorderStopped).errorMsg = emptyRecordingMsg
      ∧ (step env s .recorderStopped).analysisCalls = s.analysisCalls
      ∧ (step env s .recorderStopped).isSubmitting = s.isSubmitting)
    ∧ (∀ (env : VEnv) (s : VState), s.stage = .recording → s.elapsed < 2 →
      step env s .stopClick = s) := by
  constructor
  · intro env s hp hb
    simp [step, onstopHandler, hp, hb]
  · intro env s hs he
    simp only [step]
    rw [if_neg]
    rintro ⟨-, h2⟩
    omega

/-- Witness for C7: a pending stop with 500 buffered bytes errors out, and a
stop click at 1 elapsed second is a no-op. -/
theorem C7_empty_recording_guard_witness :
    (step ⟨true, .online, .granted, false⟩
        { initVState with stopPending := true, chunkBytes := 500 }
        .recorderStopped).stage = .error
    ∧ step ⟨true, .online, .granted, false⟩
        { initVState with stage := .recording, elapsed := 1 } .stopClick =
      { initVState with stage := .recording, elapsed := 1 } := by
  exact ⟨(C7_empty_recording_guard.1 ⟨true, .online, .granted, false⟩
      { initVState with stopPending := true, chunkBytes := 500 } rfl (by norm_num)).1,
    C7_empty_recording_guard.2 ⟨true, .online, .granted, false⟩
      { initVState with stage := .recording, elapsed := 1 } rfl (by norm_num)⟩

/-- C8 counterexample: `checking` is a non-Online backend status, yet a
direct `startRecording` call in that state is not refused and sets no
error — it proceeds all the way to the `recording` stage. -/
theorem C8_counterexample_checking_not_refused :
    BStatus.checking ≠ .online
    ∧ (startRecording ⟨true, .checking, .granted, false⟩ initVState).stage = .recording
    ∧ (startRecording ⟨true, .checking, .granted, false⟩ initVState).errorMsg = "" := by
  exact ⟨by decide, rfl, rfl⟩

/-- C8 (amended): probes that error or time out map to `offline`, a
successful probe with `model_ready=false` maps to `no_model` (never
conflated with `offline`), otherwise `online`; `startRecording` consults
the last known status and refuses `offline` and `no_model` with distinct
specific errors; the transient `checking` state is gated only by the
disabled start button (the click is a no-op), not by an in-function
refusal. -/
theorem C8_health_mapping_and_start_gate :
    (pingBackend .networkError = .offline
      ∧ pingBackend .timeout = .offline
      ∧ pingBackend .httpError = .offline
      ∧ pingBackend (.success false) = .no_model
      ∧ pingBackend (.success true) = .online)
    ∧ (∀ (env : VEnv) (s : VState), env.patientSelected = true →
        env.backendStatus = .offline →
        startRecording env s = { s with errorMsg := backendOfflineMsg })
    ∧ (∀ (env : VEnv) (s : VState), env.patientSelected = true →
        env.backendStatus = .no_model →
        startRecording env s = { s with errorMsg := modelNotReadyMsg })
    ∧ backendOfflineMsg ≠ modelNotReadyMsg
    ∧ (∀ (env : VEnv) (s : VState), env.backendStatus ≠ .online →
        step env s .startClick = s) := by
  refine ⟨⟨rfl, rfl, rfl, rfl, rfl⟩, ?_, ?_, by decide, ?_⟩
  · intro env s hp hb
    simp [startRecording, hp, hb]
  · intro env s hp hb
    simp [startRecording, hp, hb]
  · intro env s hb
    simp only [step]
    rw [if_neg]
    rintro ⟨-, -, hon⟩
    exact hb hon

/-- Witness for C8: concrete refusals in the `offline` and `no_model`
states and a no-op start click while `checking`. -/
theorem C8_health_mapping_and_start_gate_witness :
    startRecording ⟨true, .offline, .granted, false⟩ initVState =
      { initVState with errorMsg := backendOfflineMsg }
    ∧ startRecording ⟨true, .no_model, .granted, false⟩ initVState =
      { initVState with errorMsg := modelNotReadyMsg }
    ∧ step ⟨true, .checking, .granted, false⟩ initVState .startClick = initVState := by
  exact ⟨C8_health_mapping_and_start_gate.2.1 ⟨true, .offline, .granted, false⟩
      initVState rfl rfl,
    C8_health_mapping_and_start_gate.2.2.1 ⟨true, .no_model, .granted, false⟩
      initVState rfl rfl,
    C8_health_mapping_and_start_gate.2.2.2.2 ⟨true, .checking, .granted, false⟩
      initVState (by decide)⟩

/-- C9: MIME negotiation walks the fixed preference list in order and picks
the first supported entry, falling back to the runtime default (empty
string) when none is supported; a runtime supporting only `audio/wav`
selects `audio/wav`, whose upload filename extension is `wav`. -/
theorem C9_mime_negotiation :
    (∀ isTypeSupported : String → Bool,
      getSupportedMime true isTypeSupported =
        (if isTypeSupported "audio/mp4" then "audio/mp4"
         else if isTypeSupported "audio/webm;codecs=opus" then "audio/webm;codecs=opus"
         else if isTypeSupported "audio/webm" then "audio/webm"
         else if isTypeSupported "audio/ogg;codecs=opus" then "audio/ogg;codecs=opus"
         else if isTypeSupported "audio/ogg" then "audio/ogg"
         else if isTypeSupported "audio/wav" then "audio/wav"
         else ""))
    ∧ getSupportedMime true (fun m => m == "audio/wav") = "audio/wav"
    ∧ extForMime "audio/wav" = "wav"
    ∧ uploadFilename "audio/wav" = "recording.wav" := by
  refine ⟨fun sup => ?_, rfl, rfl, rfl⟩
  simp only [getSupportedMime, SUPPORTED_MIME]
  cases h1 : sup "audio/mp4" <;> cases h2 : sup "audio/webm;codecs=opus" <;>
    cases h3 : sup "audio/webm" <;> cases h4 : sup "audio/ogg;codecs=opus" <;>
    cases h5 : sup "audio/ogg" <;> cases h6 : sup "audio/wav" <;>
    simp [List.find?, h1, h2, h3, h4, h5, h6]

/-- C10: when microphone acquisition fails inside `startRecording` (with a
patient selected and the backend-status guards passed), the session state
is unchanged except for the error message — the stage, tick timer,
visualizer, recognition, stream, recorder and chunk buffer are all left as
they were — and each failure kind carries a distinct message. -/
theorem C10_mic_failure_leaves_state :
    (∀ (env : VEnv) (s : VState), env.patientSelected = true →
      env.backendStatus ≠ .offline → env.backendStatus ≠ .no_model →
      env.mic ≠ .granted →
      startRecording env s = { s with errorMsg := micFailMsg env.mic })
    ∧ micFailMsg .notAllowed ≠ micFailMsg .notFound
    ∧ (∀ m : String, micFailMsg (.otherError m) ≠ micFailMsg .notAllowed)
    ∧ (∀ m : String, micFailMsg (.otherError m) ≠ micFailMsg .notFound) := by
  have hpre : ∀ (m t : String), ¬ ("Microphone error: ".data <+: t.data) →
      "Microphone error: " ++ m ≠ t := by
    intro m t ht h
    apply ht
    have hd := congrArg String.data h
    rw [String.data_append] at hd
    rw [← hd]
    exact List.prefix_append _ _
  refine ⟨?_, by decide, fun m => hpre m _ (by decide), fun m => hpre m _ (by decide)⟩
  intro env s hp hb1 hb2 hm
  obtain ⟨p, b, mic, sp⟩ := env
  simp only at hp hb1 hb2 hm
  subst hp
  cases mic with
  | granted => exact absurd rfl hm
  | notAllowed => simp [startRecording, hb1, hb2]
  | notFound => simp [startRecording, hb1, hb2]
  | otherError m => simp [startRecording, hb1, hb2]

/-- Witness for C10: a denied microphone with the backend online only sets
the denial message. -/
theorem C10_mic_failure_leaves_state_witness :
    startRecording ⟨true, .online, .notAllowed, false⟩ initVState =
      { initVState with errorMsg := micFailMsg .notAllowed } := by
  exact C10_mic_failure_leaves_state.1 ⟨true, .online, .notAllowed, false⟩ initVState
    rfl (by decide) (by decide) (by decide)
